/-
  Verification of the cam_draw program (src/src/main.rs).

  The development shallowly embeds the parts of `main.rs` that the claims
  concern: segment-to-curve conversion (`curve_segment_to_info`), the main
  segment loop, the linkage-synthesis loop, the output-file plumbing
  (`add_file_suffix`, `create_output_file`, the output branches of `main`),
  and the binary STL writer (`write_stl_file`).

  f64 values are modelled in two ways:
  * plain `Real` for the segment-conversion layer, where every claim is about
    exact comparisons and structural facts;
  * `FV` (a finite real or `nan`) for the linkage-synthesis layer, where one
    claim is about propagation of non-finite values.  `FV.nan` stands for any
    non-finite f64 (NaN or an infinity); each operation returns `nan`
    exactly when IEEE-754 would return a non-finite value on the inputs the
    claims exercise (operands that are finite or NaN).

  The vector/point algebra, the `CurveSegment` type and the primitive
  curves live in the external `paths` crate, which is not part of this
  repository's sources; those definitions are modelled from the spec and
  carry a `Modelled from the spec:` note.
-/
import Mathlib

noncomputable section

/-! ## Finite-or-non-finite scalar model of f64 -/

/-- An f64 value as used by the synthesis loop: either a finite real number
or `nan`, which stands for any non-finite value (NaN or ±∞). -/
inductive FV where
  | num : ℝ → FV
  | nan : FV

namespace FV

def add : FV → FV → FV
  | num a, num b => num (a + b)
  | _, _ => nan

def sub : FV → FV → FV
  | num a, num b => num (a - b)
  | _, _ => nan

def mul : FV → FV → FV
  | num a, num b => num (a * b)
  | _, _ => nan

/-- Division; a zero divisor yields a non-finite value (IEEE: ±∞ or NaN). -/
def div : FV → FV → FV
  | num a, num b => if b = 0 then nan else num (a / b)
  | _, _ => nan

def neg : FV → FV
  | num a => num (-a)
  | nan => nan

/-- f64 `sqrt`: NaN on negative operands (the property claim C5 rests on). -/
def sqrt : FV → FV
  | num a => if a < 0 then nan else num (Real.sqrt a)
  | nan => nan

def sin : FV → FV
  | num a => num (Real.sin a)
  | nan => nan

def cos : FV → FV
  | num a => num (Real.cos a)
  | nan => nan

end FV

instance : Add FV := ⟨FV.add⟩
instance : Sub FV := ⟨FV.sub⟩
instance : Mul FV := ⟨FV.mul⟩
instance : Div FV := ⟨FV.div⟩
instance : Neg FV := ⟨FV.neg⟩

@[simp] theorem FV.nan_add (x : FV) : FV.nan + x = FV.nan := by cases x <;> rfl
@[simp] theorem FV.add_nan (x : FV) : x + FV.nan = FV.nan := by cases x <;> rfl
@[simp] theorem FV.nan_sub (x : FV) : FV.nan - x = FV.nan := by cases x <;> rfl
@[simp] theorem FV.sub_nan (x : FV) : x - FV.nan = FV.nan := by cases x <;> rfl
@[simp] theorem FV.nan_mul (x : FV) : FV.nan * x = FV.nan := by cases x <;> rfl
@[simp] theorem FV.mul_nan (x : FV) : x * FV.nan = FV.nan := by cases x <;> rfl
@[simp] theorem FV.nan_div (x : FV) : FV.nan / x = FV.nan := by cases x <;> rfl
@[simp] theorem FV.div_nan (x : FV) : x / FV.nan = FV.nan := by cases x <;> rfl
@[simp] theorem FV.neg_nan : -FV.nan = FV.nan := rfl
@[simp] theorem FV.sqrt_nan : FV.sqrt FV.nan = FV.nan := rfl
@[simp] theorem FV.sin_nan : FV.sin FV.nan = FV.nan := rfl
@[simp] theorem FV.cos_nan : FV.cos FV.nan = FV.nan := rfl

@[simp] theorem FV.num_add_num (a b : ℝ) : FV.num a + FV.num b = FV.num (a + b) := rfl
@[simp] theorem FV.num_sub_num (a b : ℝ) : FV.num a - FV.num b = FV.num (a - b) := rfl
@[simp] theorem FV.num_mul_num (a b : ℝ) : FV.num a * FV.num b = FV.num (a * b) := rfl
@[simp] theorem FV.neg_num (a : ℝ) : -FV.num a = FV.num (-a) := rfl

theorem FV.num_div_num (a b : ℝ) (hb : b ≠ 0) :
    FV.num a / FV.num b = FV.num (a / b) := by
  show FV.div _ _ = _
  simp [FV.div, hb]

theorem FV.sqrt_num_of_nonneg (a : ℝ) (ha : 0 ≤ a) :
    FV.sqrt (FV.num a) = FV.num (Real.sqrt a) := by
  simp [FV.sqrt, not_lt.mpr ha]

theorem FV.sqrt_num_of_neg (a : ℝ) (ha : a < 0) :
    FV.sqrt (FV.num a) = FV.nan := by
  simp [FV.sqrt, ha]

/-! ## Point algebra over `FV`

Modelled from the spec: the `paths` crate's `Point`/`Vector` type is a pair
of f64 coordinates with componentwise addition and subtraction, scalar
multiplication, rotation by ±90°, normalization (`unit`) and Euclidean
`length`. -/

/-- A 2D point/vector of f64 coordinates (synthesis layer). -/
structure FPt where
  x : FV
  y : FV

instance : Add FPt := ⟨fun p q => ⟨p.x + q.x, p.y + q.y⟩⟩
instance : Sub FPt := ⟨fun p q => ⟨p.x - q.x, p.y - q.y⟩⟩
instance : Neg FPt := ⟨fun p => ⟨-p.x, -p.y⟩⟩
instance : HMul FPt FV FPt := ⟨fun p s => ⟨p.x * s, p.y * s⟩⟩

namespace FPt

/-- Modelled from the spec: Euclidean length of a 2D vector. -/
def len (p : FPt) : FV := FV.sqrt (p.x * p.x + p.y * p.y)

/-- Modelled from the spec: normalization to a unit vector. -/
def unit (p : FPt) : FPt := ⟨p.x / len p, p.y / len p⟩

/-- Modelled from the spec: rotation by 90° counter-clockwise. -/
def rotate_90_ccw (p : FPt) : FPt := ⟨-p.y, p.x⟩

/-- Modelled from the spec: rotation by 90° clockwise. -/
def rotate_90_cw (p : FPt) : FPt := ⟨p.y, -p.x⟩

end FPt

@[simp] theorem FPt.x_add (p q : FPt) : (p + q).x = p.x + q.x := rfl
@[simp] theorem FPt.y_add (p q : FPt) : (p + q).y = p.y + q.y := rfl
@[simp] theorem FPt.x_sub (p q : FPt) : (p - q).x = p.x - q.x := rfl
@[simp] theorem FPt.y_sub (p q : FPt) : (p - q).y = p.y - q.y := rfl
@[simp] theorem FPt.neg_x (p : FPt) : (-p).x = -p.x := rfl
@[simp] theorem FPt.neg_y (p : FPt) : (-p).y = -p.y := rfl
@[simp] theorem FPt.smul_x (p : FPt) (s : FV) : (p * s).x = p.x * s := rfl
@[simp] theorem FPt.smul_y (p : FPt) (s : FV) : (p * s).y = p.y * s := rfl

/-! ## Real-valued point algebra (segment-conversion layer) -/

/-- A 2D point of f64 coordinates, modelled as exact reals (segment layer).
Modelled from the spec: pair of coordinates with componentwise algebra. -/
structure Pt where
  x : ℝ
  y : ℝ

instance : Add Pt := ⟨fun p q => ⟨p.x + q.x, p.y + q.y⟩⟩
instance : Sub Pt := ⟨fun p q => ⟨p.x - q.x, p.y - q.y⟩⟩

/-- Modelled from the spec: Euclidean length of a 2D vector. -/
def Pt.len (p : Pt) : ℝ := Real.sqrt (p.x * p.x + p.y * p.y)

@[simp] theorem Pt.add_x (p q : Pt) : (p + q).x = p.x + q.x := rfl
@[simp] theorem Pt.add_y (p q : Pt) : (p + q).y = p.y + q.y := rfl
@[simp] theorem Pt.sub_x (p q : Pt) : (p - q).x = p.x - q.x := rfl
@[simp] theorem Pt.sub_y (p q : Pt) : (p - q).y = p.y - q.y := rfl

/-! ## Segment descriptors and curve primitives -/

/-- Modelled from the spec: the `paths` crate's `CurveSegment` descriptor.
`goTo` is the `MoveTo`/`GoTo` variant (new subpath start); `arc` carries
`(radiusX, radiusY, startAngle, endAngle, xAxisRotation)` in center form.
For `curveTo`, the endpoint is absolute while each control point is stored
relative to its adjacent endpoint (`c1` to the segment start, `c2` to the
segment end), the convention under which `main.rs` consumes them. -/
inductive CurveSegment where
  | goTo (p : Pt)
  | lineTo (p : Pt)
  | closeTo (p : Pt)
  | curveTo (p2 c1 c2 : Pt)
  | arc (rx ry startAngle endAngle xrot : ℝ)

/-- A curve primitive produced by `curve_segment_to_info`:
`line` holds the displacement vector, `bezier` two cursor-relative control
points and the cursor-relative endpoint, `circle` a radius and the signed
start/end angles. -/
inductive CurveInfo where
  | line (rel : Pt)
  | bezier (c1 c2 rel : Pt)
  | circle (r startAngle endAngle : ℝ)

/-- `f64::EPSILON` = 2⁻⁵². -/
def f64Epsilon : ℝ := 1 / 2 ^ 52

/-- Modelled from the spec: the endpoint displacement of a circle segment,
`circle.value(circle.length()).0`.  The arc's first point is at the local
origin and `value` at full arc length is the point at `endAngle`, so the
displacement is `r·(cos end − cos start, sin end − sin start)`. -/
def circleEndDisp (r startAngle endAngle : ℝ) : Pt :=
  ⟨r * Real.cos endAngle - r * Real.cos startAngle,
   r * Real.sin endAngle - r * Real.sin startAngle⟩

/-- Embeds `curve_segment_to_info` (main.rs lines 13-40).  The Rust function
mutates `current_pos`; here the updated cursor is returned alongside the
primitive.  `None` models the `return None` paths. -/
def curve_segment_to_info : CurveSegment → Pt → Option (CurveInfo × Pt)
  | .lineTo p2, pos => some (.line (p2 - pos), p2)
  | .closeTo p2, pos => some (.line (p2 - pos), p2)
  | .curveTo p2 c1 c2, pos =>
    let rel := p2 - pos
    some (.bezier c1 (rel + c2) rel, p2)
  | .arc rx ry sa ea _, pos =>
    -- Only circles are supported
    if |rx - ry| > f64Epsilon then none
    else some (.circle rx sa ea, pos + circleEndDisp rx sa ea)
  | .goTo _, _ => none

/-! ## The main segment loop (main.rs lines 306-345) -/

/-- The running state of the segment loop: the cursor, the current subpath
start, and the primitives appended to the `ConcatCurve` so far. -/
structure SegState where
  current_pos : Pt
  start : Pt
  curves : List CurveInfo

/-- The message of the `panic!` in the main loop. -/
def panicMsg : String := "Unhandled CurveSegment type"

/-- One iteration of the `for seg in &segs` loop in `main`. -/
def mainSegStep (st : SegState) (seg : CurveSegment) : Except String SegState :=
  match seg with
  | .goTo p => .ok ⟨p, p, st.curves⟩
  | .closeTo p2 =>
    if (st.current_pos - p2).len < 1e-6 then
      -- Skip short closing lines
      .ok ⟨p2, st.start, st.curves⟩
    else
      match curve_segment_to_info (.closeTo p2) st.current_pos with
      | some (info, pos2) => .ok ⟨pos2, st.start, st.curves ++ [info]⟩
      | none => .error panicMsg
  | seg =>
    match curve_segment_to_info seg st.current_pos with
    | some (info, pos2) => .ok ⟨pos2, st.start, st.curves ++ [info]⟩
    | none => .error panicMsg

/-- The whole segment loop; an `error` models the `panic!`. -/
def processSegs : SegState → List CurveSegment → Except String SegState
  | st, [] => .ok st
  | st, seg :: rest =>
    match mainSegStep st seg with
    | .ok st2 => processSegs st2 rest
    | .error e => .error e

/-- Initial loop state: cursor and subpath start at the origin, no curves. -/
def initSegState : SegState := ⟨⟨0, 0⟩, ⟨0, 0⟩, []⟩

/-- Total arc length of the composite curve for a given per-primitive
length assignment (the primitives' own lengths are computed by the external
`paths` crate, so the length function is kept abstract). -/
def concatTotalLength (ell : CurveInfo → ℝ) (cs : List CurveInfo) : ℝ :=
  (cs.map ell).sum

/-! ## Linkage synthesis (main.rs lines 347-391)

The synthesis loop reads the composite curve only through `curves.length()`
and `curves.value(pos)`, both computed by the external `paths` crate, so it
is embedded parametrically in a `Synth.Cfg` carrying those two and the
subpath start point. -/

namespace Synth

/-- `let lu = 8.0`. -/
def lu : ℝ := 8.0
/-- `let d = 8.0 * lu`. -/
def d : ℝ := 8.0 * lu
/-- `let f = 6.0 * lu`. -/
def f : ℝ := 6.0 * lu
/-- `let g = 3.0 * lu`. -/
def g : ℝ := 3.0 * lu
/-- `let h = 7.0 * lu`. -/
def h : ℝ := 7.0 * lu
/-- `let follower_radius = 0.5 * lu`. -/
def follower_radius : ℝ := 0.5 * lu
/-- `let p0 = Point { x: h, y: 0.0 }`. -/
def p0 : FPt := ⟨FV.num h, FV.num 0⟩
/-- `let full_turn = 400`. -/
def full_turn : ℕ := 400

/-- The synthesis loop's view of the composite curve: its total arc length,
its point at a given arc length (`curves.value(pos).0`), and the subpath
start point from the segment loop. -/
structure Cfg where
  curveLen : FV
  curveVal : FV → FPt
  start : FPt

/-- `let pos = f64::from(rot) * length / f64::from(full_turn)`. -/
def pos (c : Cfg) (N rot : ℕ) : FV :=
  FV.num rot * c.curveLen / FV.num N

/-- `let (p1, _) = curves.value(pos)`. -/
def p1 (c : Cfg) (N rot : ℕ) : FPt := c.curveVal (pos c N rot)

/-- `let p10 = p1 + Point { x: d, y: 0.0 } + start`. -/
def p10 (c : Cfg) (N rot : ℕ) : FPt :=
  p1 c N rot + (⟨FV.num d, FV.num 0⟩ : FPt) + c.start

/-- `let b = p10.length() * 0.5`. -/
def b (c : Cfg) (N rot : ℕ) : FV := (p10 c N rot).len * FV.num 0.5

/-- `let a = (d * d - b * b).sqrt()`. -/
def a (c : Cfg) (N rot : ℕ) : FV :=
  FV.sqrt (FV.num d * FV.num d - b c N rot * b c N rot)

/-- `let p40 = (-p10 * 0.5 + p10.rotate_90_ccw().unit() * a).unit()`. -/
def p40 (c : Cfg) (N rot : ℕ) : FPt :=
  FPt.unit (-(p10 c N rot) * FV.num 0.5 +
    (p10 c N rot).rotate_90_ccw.unit * a c N rot)

/-- `let p50 = (-p10 * 0.5 + p10.rotate_90_cw().unit() * a).unit()`. -/
def p50 (c : Cfg) (N rot : ℕ) : FPt :=
  FPt.unit (-(p10 c N rot) * FV.num 0.5 +
    (p10 c N rot).rotate_90_cw.unit * a c N rot)

/-- `let p2 = p40 * f + p40.rotate_90_ccw() * g + p0`. -/
def p2 (c : Cfg) (N rot : ℕ) : FPt :=
  p40 c N rot * FV.num f + (p40 c N rot).rotate_90_ccw * FV.num g + p0

/-- `let p3 = p50 * f + p50.rotate_90_cw() * g + p0`. -/
def p3 (c : Cfg) (N rot : ℕ) : FPt :=
  p50 c N rot * FV.num f + (p50 c N rot).rotate_90_cw * FV.num g + p0

/-- The rotation angle `f64::from(rot) * 2.0 * PI / f64::from(full_turn)`. -/
def angle (N rot : ℕ) : FV :=
  FV.num rot * FV.num 2.0 * FV.num Real.pi / FV.num N

/-- Modelled from the spec: `Transform::rotate(θ) * p`, a pure-rotation 2×2
matrix applied to a point. -/
def rotatePt (θ : FV) (p : FPt) : FPt :=
  ⟨FV.cos θ * p.x - FV.sin θ * p.y, FV.sin θ * p.x + FV.cos θ * p.y⟩

/-- `let p2r = Transform::rotate(...) * p2` — the raw rotated point of the
first follower curve at step `rot`. -/
def p2r (c : Cfg) (N rot : ℕ) : FPt := rotatePt (angle N rot) (p2 c N rot)

/-- `let p3r = Transform::rotate(...) * p3` — the raw rotated point of the
second follower curve at step `rot`. -/
def p3r (c : Cfg) (N rot : ℕ) : FPt := rotatePt (angle N rot) (p3 c N rot)

/-- The follower-radius correction applied to a pair of consecutive raw
rotated points (main.rs lines 383-387):
`(cur - prev).rotate_90_ccw().unit() * follower_radius + (cur + prev) * 0.5`. -/
def interp (prev cur : FPt) : FPt :=
  (cur - prev).rotate_90_ccw.unit * FV.num follower_radius +
    (cur + prev) * FV.num 0.5

/-- The loop state: `path1`, `path2` and `prev_pr`. -/
def LoopState : Type := List FPt × List FPt × Option (FPt × FPt)

/-- One iteration of the `for rot in 0..=full_turn` loop. -/
def loopStep (c : Cfg) (N : ℕ) (st : LoopState) (rot : ℕ) : LoopState :=
  let pr2 := p2r c N rot
  let pr3 := p3r c N rot
  match st.2.2 with
  | none => (st.1, st.2.1, some (pr2, pr3))
  | some (q2, q3) =>
    -- Shift curve towards center to compensate for the follower radius
    (st.1 ++ [interp q2 pr2], st.2.1 ++ [interp q3 pr3], some (pr2, pr3))

/-- The whole synthesis loop over `rot = 0, 1, ..., N`. -/
def synthLoop (c : Cfg) (N : ℕ) : LoopState :=
  (List.range (N + 1)).foldl (loopStep c N) ([], [], none)

/-- The first output polyline. -/
def path1 (c : Cfg) (N : ℕ) : List FPt := (synthLoop c N).1

/-- The second output polyline. -/
def path2 (c : Cfg) (N : ℕ) : List FPt := (synthLoop c N).2.1

/-- The raw rotated sample pairs `(p2r, p3r)` taken by the loop, one per
step index `0, 1, ..., N`. -/
def rawSamples (c : Cfg) (N : ℕ) : List (FPt × FPt) :=
  (List.range (N + 1)).map (fun rot => (p2r c N rot, p3r c N rot))

/-- Closed form of the synthesis loop: after folding over `0..=M` the two
paths hold one corrected point per consecutive raw pair and `prev_pr` holds
the raw pair of the last step. -/
theorem synthLoop_aux (c : Cfg) (N M : ℕ) :
    (List.range (M + 1)).foldl (loopStep c N) ([], [], none) =
      ((List.range M).map (fun i => interp (p2r c N i) (p2r c N (i + 1))),
       (List.range M).map (fun i => interp (p3r c N i) (p3r c N (i + 1))),
       some (p2r c N M, p3r c N M)) := by
  induction M with
  | zero => rfl
  | succ M ih =>
    have h1 : List.range (M + 1 + 1) = List.range (M + 1) ++ [M + 1] :=
      List.range_succ (M + 1)
    have h2 : List.range (M + 1) = List.range M ++ [M] := List.range_succ M
    rw [h1, List.foldl_append, ih, h2, List.map_append, List.map_append]
    rfl

theorem synthLoop_eq (c : Cfg) (N : ℕ) :
    synthLoop c N =
      ((List.range N).map (fun i => interp (p2r c N i) (p2r c N (i + 1))),
       (List.range N).map (fun i => interp (p3r c N i) (p3r c N (i + 1))),
       some (p2r c N N, p3r c N N)) :=
  synthLoop_aux c N N

theorem path1_eq (c : Cfg) (N : ℕ) :
    path1 c N = (List.range N).map (fun i => interp (p2r c N i) (p2r c N (i + 1))) := by
  rw [path1, synthLoop_eq]

theorem path2_eq (c : Cfg) (N : ℕ) :
    path2 c N = (List.range N).map (fun i => interp (p3r c N i) (p3r c N (i + 1))) := by
  rw [path2, synthLoop_eq]

theorem path1_get (c : Cfg) (N i : ℕ) (h1 : 1 ≤ i) (h2 : i ≤ N) :
    (path1 c N).get? (i - 1) = some (interp (p2r c N (i - 1)) (p2r c N i)) := by
  have hlt : i - 1 < N := by omega
  have hsucc : i - 1 + 1 = i := by omega
  rw [path1_eq, List.get?_map, List.get?_range hlt]
  simp [hsucc]

theorem path2_get (c : Cfg) (N i : ℕ) (h1 : 1 ≤ i) (h2 : i ≤ N) :
    (path2 c N).get? (i - 1) = some (interp (p3r c N (i - 1)) (p3r c N i)) := by
  have hlt : i - 1 < N := by omega
  have hsucc : i - 1 + 1 = i := by omega
  rw [path2_eq, List.get?_map, List.get?_range hlt]
  simp [hsucc]

theorem path1_length (c : Cfg) (N : ℕ) : (path1 c N).length = N := by
  rw [path1_eq]; simp

theorem path2_length (c : Cfg) (N : ℕ) : (path2 c N).length = N := by
  rw [path2_eq]; simp

theorem rawSamples_length (c : Cfg) (N : ℕ) : (rawSamples c N).length = N + 1 := by
  rw [rawSamples]; simp

/-! ### Non-finite propagation through a synthesis step -/

theorem b_num (c : Cfg) (N rot : ℕ) (x y : ℝ)
    (hx : (p10 c N rot).x = FV.num x) (hy : (p10 c N rot).y = FV.num y) :
    b c N rot = FV.num (Real.sqrt (x * x + y * y) * 0.5) := by
  unfold b FPt.len
  rw [hx, hy, FV.num_mul_num, FV.num_mul_num, FV.num_add_num,
    FV.sqrt_num_of_nonneg _ (add_nonneg (mul_self_nonneg x) (mul_self_nonneg y)),
    FV.num_mul_num]

/-- When the triangle inequality is violated (`|p10|/2 > d`), the square-root
operand `d·d − b·b` is negative, so `a` is non-finite. -/
theorem a_eq_nan (c : Cfg) (N rot : ℕ) (x y : ℝ)
    (hx : (p10 c N rot).x = FV.num x) (hy : (p10 c N rot).y = FV.num y)
    (hgt : d < Real.sqrt (x * x + y * y) * 0.5) :
    a c N rot = FV.nan := by
  have hd : (0 : ℝ) ≤ d := by norm_num [d, lu]
  have hsq : d * d < (Real.sqrt (x * x + y * y) * 0.5) * (Real.sqrt (x * x + y * y) * 0.5) :=
    mul_self_lt_mul_self hd hgt
  unfold a
  rw [b_num c N rot x y hx hy, FV.num_mul_num, FV.num_mul_num, FV.num_sub_num]
  exact FV.sqrt_num_of_neg _ (by linarith)

theorem p40_nan (c : Cfg) (N rot : ℕ) (ha : a c N rot = FV.nan) :
    (p40 c N rot).x = FV.nan ∧ (p40 c N rot).y = FV.nan := by
  constructor <;> simp [p40, FPt.unit, FPt.len, ha]

theorem p50_nan (c : Cfg) (N rot : ℕ) (ha : a c N rot = FV.nan) :
    (p50 c N rot).x = FV.nan ∧ (p50 c N rot).y = FV.nan := by
  constructor <;> simp [p50, FPt.unit, FPt.len, ha]

theorem p2r_nan (c : Cfg) (N rot : ℕ) (ha : a c N rot = FV.nan) :
    (p2r c N rot).x = FV.nan ∧ (p2r c N rot).y = FV.nan := by
  have h40 := p40_nan c N rot ha
  constructor <;>
    simp [p2r, rotatePt, p2, FPt.rotate_90_ccw, h40.1, h40.2]

theorem p3r_nan (c : Cfg) (N rot : ℕ) (ha : a c N rot = FV.nan) :
    (p3r c N rot).x = FV.nan ∧ (p3r c N rot).y = FV.nan := by
  have h50 := p50_nan c N rot ha
  constructor <;>
    simp [p3r, rotatePt, p3, FPt.rotate_90_cw, h50.1, h50.2]

/-- A non-finite current raw point makes the corrected (emitted) point
non-finite in both coordinates: the correction does not clamp or recover. -/
theorem interp_nan_cur (prev cur : FPt)
    (hx : cur.x = FV.nan) (hy : cur.y = FV.nan) :
    (interp prev cur).x = FV.nan ∧ (interp prev cur).y = FV.nan := by
  constructor <;>
    simp [interp, FPt.unit, FPt.len, FPt.rotate_90_ccw, hx, hy]

end Synth

/-! ## Output plumbing (main.rs lines 42-74, 116-130, 281-304, 392-415) -/

/-- The bytes `svg_prologue` writes: the `format!` template with
`width = height = 100.0` filled in (Rust `Display` prints `-50.0` as `-50`
and `100.0` as `100`). -/
def svgPrologueStr : String :=
  "<?xml version=\"1.0\" encoding=\"UTF-8\" standalone=\"yes\"?>\n<svg xmlns=\"http://www.w3.org/2000/svg\"\n     width=\"100mm\" height=\"100mm\" viewBox=\"-50 -50 100 100\">\n"

/-- The bytes `svg_epilogue` writes. -/
def svgEpilogueStr : String := "</svg>\n"

/-- One `<path>` element as written by the svg-output branch of `main`,
with the f64-to-decimal formatter kept abstract. -/
def svgPathElem (fmt : FV → String) (path : List FPt) : String :=
  "<path style=\"fill:none;stroke:black\" d=\"M" ++
    String.join (path.map (fun p => " " ++ fmt p.x ++ ", " ++ fmt p.y)) ++
    " z\"/>\n"

/-- Where an output stream goes: standard output or a named file. -/
inductive OutTarget where
  | stdout
  | file (name : String)
deriving DecidableEq

/-- `create_output_file`: the filename `-` selects standard output,
anything else creates the named file.  (I/O failures are outside the
model.) -/
def create_output_file (name : String) : OutTarget :=
  if name = "-" then .stdout else .file name

/-- What gets written to an output target.  SVG output is a text document;
the two mesh writers are abstracted to the polyline they serialize. -/
inductive FileData where
  | text (s : String)
  | ldrawMesh (path : List FPt)
  | stlMesh (path : List FPt)

/-- The command-line arguments of `CmdArgs` (clap plumbing abstracted). -/
structure CmdArgs where
  svg_file : Option String
  svg_output : Option String
  ldraw_output : Option String
  stl_output : Option String
  svg_template : Option String

/-! ### `std::path` model for `add_file_suffix`

Rust's `Path::parent`, `file_stem`, `extension`, `join` and
`PathBuf::set_extension` are modelled on plain strings with `/` as the
separator.  The model covers relative and absolute paths made of normal
components (no `.`/`..` component handling, no trailing separators), which
includes every input the claims exercise. -/

/-- Splits a character list at the LAST occurrence of `sep`, returning the
parts before and after it, or `none` if `sep` does not occur. -/
def splitLastOn (sep : Char) : List Char → Option (List Char × List Char)
  | [] => none
  | c :: rest =>
    match splitLastOn sep rest with
    | some (pre, suf) => some (c :: pre, suf)
    | none => if c = sep then some ([], rest) else none

/-- The final path component (Rust `file_name`, as a character list). -/
def pathFileNameL (p : String) : List Char :=
  match splitLastOn '/' p.toList with
  | none => p.toList
  | some (_, suf) => suf

/-- Rust `Path::parent`. -/
def pathParent (p : String) : Option String :=
  if p = "" ∨ p = "/" then none
  else
    match splitLastOn '/' p.toList with
    | none => some ""
    | some ([], _) => some "/"
    | some (pre, _) => some (String.mk pre)

/-- Splits a file name into stem and extension at its last `.`; a name
whose only `.` is leading (a hidden file) has no extension. -/
def fileStemExt (name : List Char) : List Char × Option (List Char) :=
  match splitLastOn '.' name with
  | none => (name, none)
  | some ([], _) => (name, none)
  | some (pre, suf) => (pre, some suf)

/-- Rust `Path::file_stem`. -/
def pathFileStem (p : String) : Option String :=
  let n := pathFileNameL p
  if n.isEmpty then none else some (String.mk (fileStemExt n).1)

/-- Rust `Path::extension`. -/
def pathExtension (p : String) : Option String :=
  let n := pathFileNameL p
  ((fileStemExt n).2).map String.mk

/-- Rust `PathBuf::set_extension` on a single-component file name:
replaces any existing extension of `file` with `e`. -/
def setExtension (file e : String) : String :=
  let stem := String.mk (fileStemExt file.toList).1
  if e = "" then stem else stem ++ "." ++ e

/-- Rust `Path::join` for a non-absolute right operand. -/
def pathJoin (parent file : String) : String :=
  if parent = "" then file
  else if parent.endsWith "/" then parent ++ file
  else parent ++ "/" ++ file

/-- Embeds `add_file_suffix` (main.rs lines 116-130). -/
def add_file_suffix (path suffix : String) : Except String String :=
  match pathParent path with
  | none => .error "Invalid output file name"
  | some parent =>
    match pathFileStem path with
    | none => .error "Invalid output file name"
    | some stem =>
      let ext := pathExtension path
      let filename := stem ++ suffix
      let filepath :=
        match ext with
        | some e => setExtension filename e
        | none => filename
      .ok (pathJoin parent filepath)

/-! ### The output phase and whole-run function -/

/-- Injects a segment-layer point into the synthesis layer (its coordinates
are finite f64 values). -/
def liftPt (p : Pt) : FPt := ⟨FV.num p.x, FV.num p.y⟩

/-- The two profile polylines computed from a finished segment-loop state.
`curveSem` gives the external `ConcatCurve`'s total length and
arc-length-to-point function for the accumulated primitive list. -/
def synthFromState (curveSem : List CurveInfo → FV × (FV → FPt))
    (st : SegState) : List FPt × List FPt :=
  let sem := curveSem st.curves
  let cfg : Synth.Cfg := ⟨sem.1, sem.2, liftPt st.start⟩
  (Synth.path1 cfg Synth.full_turn, Synth.path2 cfg Synth.full_turn)

/-- The output branches at the end of `main` (lines 392-414): `-o` wins,
else `-l`, else `-s`, else nothing is written. -/
def outputWrites (fmt : FV → String) (args : CmdArgs) (path1 path2 : List FPt) :
    Except String (List (OutTarget × FileData)) :=
  match args.svg_output with
  | some fo =>
    .ok [(create_output_file fo,
      .text (svgPrologueStr ++ svgPathElem fmt path1 ++ svgPathElem fmt path2 ++
        svgEpilogueStr))]
  | none =>
    match args.ldraw_output with
    | some fo =>
      match add_file_suffix fo "_1" with
      | .error e => .error e
      | .ok f1 =>
        match add_file_suffix fo "_2" with
        | .error e => .error e
        | .ok f2 =>
          .ok [(create_output_file f1, .ldrawMesh path1),
               (create_output_file f2, .ldrawMesh path2)]
    | none =>
      match args.stl_output with
      | some fo =>
        match add_file_suffix fo "_1" with
        | .error e => .error e
        | .ok f1 =>
          match add_file_suffix fo "_2" with
          | .error e => .error e
          | .ok f2 =>
            .ok [(create_output_file f1, .stlMesh path1),
                 (create_output_file f2, .stlMesh path2)]
      | none => .ok []

/-- Embeds the whole of `main` after the input file is opened, as a function
of the parsed segment list (SVG parsing is done by the external
`svg_parser` crate; opening the input file and other I/O failures are
outside the model).  In template mode the run writes the empty SVG document
and returns before the input is parsed; otherwise the segment loop runs
(an `error` models the `panic!`) and the selected serializer is fed the two
synthesized polylines. -/
def mainRun (curveSem : List CurveInfo → FV × (FV → FPt)) (fmt : FV → String)
    (args : CmdArgs) (segs : List CurveSegment) :
    Except String (List (OutTarget × FileData)) :=
  match args.svg_template with
  | some t =>
    .ok [(create_output_file t, .text (svgPrologueStr ++ svgEpilogueStr))]
  | none =>
    match processSegs initSegState segs with
    | .error e => .error e
    | .ok st =>
      outputWrites fmt args (synthFromState curveSem st).1
        (synthFromState curveSem st).2

/-! ## The binary STL writer (main.rs lines 186-279) -/

/-- One triangle record of the binary STL body: a normal and three
vertices, each an xy-point with a z height (serialized as three f32 values
by `write_stl_xy_z`, with a 16-bit trailing pad per record). -/
structure StlTri where
  normal : FPt × FV
  v1 : FPt × FV
  v2 : FPt × FV
  v3 : FPt × FV

/-- `write_stl_quad`: a quadrilateral split into two triangle records. -/
def write_stl_quad (n : FPt × FV) (v0 v1 v2 v3 : FPt × FV) : List StlTri :=
  [⟨n, v0, v1, v2⟩, ⟨n, v2, v3, v0⟩]

/-- The two quadrilaterals (one vertical wall, one top cap) that
`write_stl_file`'s loop body emits for a consecutive vertex pair, with
`lower = 0.0`, `upper = 8.0`, `radius = 6.0`. -/
def stlPairQuads (prev p : FPt) : List StlTri :=
  let lower := FV.num 0
  let upper := FV.num 8
  let radius := FV.num 6
  let c := p * (radius / p.len)
  let prev_c := prev * (radius / prev.len)
  write_stl_quad (p, FV.num 0)
    (prev, lower) (p, lower) (p, upper) (prev, upper) ++
  write_stl_quad (⟨FV.num 0, FV.num 0⟩, FV.num 1)
    (p, upper) (c, upper) (prev_c, upper) (prev, upper)

/-- The `for p in path` loop with `prev` threaded through. -/
def stlTrianglesGo (prev : FPt) : List FPt → List StlTri
  | [] => []
  | p :: rest => stlPairQuads prev p ++ stlTrianglesGo p rest

/-- All triangle records `write_stl_file` writes: none for an empty
polyline (`path.last()` is `None`), otherwise the loop starting with
`prev = path.last()` — the last vertex is paired with the first. -/
def stlTriangles : List FPt → List StlTri
  | [] => []
  | p :: rest => stlTrianglesGo ((p :: rest).getLast (by simp)) (p :: rest)

/-- The 80-byte header of zeros. -/
def stlHeader : List ℕ := List.replicate 80 0

/-- The declared triangle count: `(path.len() * (2*2)) as u32`, i.e. the
value written as a 32-bit little-endian integer (the `as u32` cast reduces
modulo 2³²). -/
def declaredTriangleCount (path : List FPt) : ℕ :=
  (path.length * (2 * 2)) % 2 ^ 32

theorem stlTrianglesGo_length (prev : FPt) (l : List FPt) :
    (stlTrianglesGo prev l).length = 4 * l.length := by
  induction l generalizing prev with
  | nil => rfl
  | cons p rest ih =>
    simp [stlTrianglesGo, stlPairQuads, write_stl_quad, ih]
    omega

theorem stlTriangles_length (path : List FPt) :
    (stlTriangles path).length = 2 * 2 * path.length := by
  cases path with
  | nil => rfl
  | cons p rest =>
    rw [stlTriangles, stlTrianglesGo_length]

/-! ## Panic propagation for unsupported arcs -/

/-- The only error the segment loop can produce is the `panic!` message. -/
theorem mainSegStep_error (st : SegState) (seg : CurveSegment) (e : String) :
    mainSegStep st seg = .error e → e = panicMsg := by
  cases seg with
  | goTo p => intro hstep; simp [mainSegStep] at hstep
  | lineTo p2 => intro hstep; simp [mainSegStep, curve_segment_to_info] at hstep
  | closeTo p2 =>
    intro hstep
    by_cases hs : (st.current_pos - p2).len < 1e-6 <;>
      simp [mainSegStep, hs, curve_segment_to_info] at hstep
  | curveTo p2 c1 c2 =>
    intro hstep; simp [mainSegStep, curve_segment_to_info] at hstep
  | arc rx ry sa ea ro =>
    intro hstep
    by_cases hbad : |rx - ry| > f64Epsilon <;>
      simp [mainSegStep, curve_segment_to_info, hbad] at hstep
    exact hstep.symm

/-- A segment list containing an arc with unequal radii always makes the
segment loop terminate with the `panic!`, whatever came before it. -/
theorem processSegs_badArc (rx ry sa ea ro : ℝ)
    (hbad : |rx - ry| > f64Epsilon) :
    ∀ (segs : List CurveSegment) (st : SegState),
      (CurveSegment.arc rx ry sa ea ro) ∈ segs →
      processSegs st segs = .error panicMsg := by
  intro segs
  induction segs with
  | nil => intro st hmem; simp at hmem
  | cons seg rest ih =>
    intro st hmem
    rcases List.mem_cons.mp hmem with heq | hmem2
    · subst heq
      simp [processSegs, mainSegStep, curve_segment_to_info, hbad]
    · cases hstep : mainSegStep st seg with
      | ok st2 =>
        simp [processSegs, hstep]
        exact ih st2 hmem2
      | error e =>
        have he := mainSegStep_error st seg e hstep
        subst he
        simp [processSegs, hstep]

/-! ## Big-step relation for the whole run (determinism, claim C9)

The pipeline is re-stated as an inductive big-step relation whose
constructors mirror the branches of `main`; determinism is proved by rule
induction, resolving the guard overlaps explicitly. -/

/-- The guard under which a segment falls through to the
`curve_segment_to_info` arm of the loop's `match`: it is not a `GoTo` and
not a degenerate (short) `CloseTo`. -/
def convArm (st : SegState) : CurveSegment → Prop
  | .goTo _ => False
  | .closeTo p2 => ¬ (st.current_pos - p2).len < 1e-6
  | _ => True

/-- Big-step semantics of the segment loop. -/
inductive SegsRel : SegState → List CurveSegment → Except String SegState → Prop where
  | nil (st : SegState) : SegsRel st [] (.ok st)
  | goToStep (st : SegState) (p : Pt) (rest : List CurveSegment)
      (r : Except String SegState) :
      SegsRel ⟨p, p, st.curves⟩ rest r → SegsRel st (.goTo p :: rest) r
  | closeShort (st : SegState) (p2 : Pt) (rest : List CurveSegment)
      (r : Except String SegState)
      (hshort : (st.current_pos - p2).len < 1e-6) :
      SegsRel ⟨p2, st.start, st.curves⟩ rest r → SegsRel st (.closeTo p2 :: rest) r
  | convStep (st : SegState) (seg : CurveSegment) (rest : List CurveSegment)
      (r : Except String SegState) (info : CurveInfo) (pos2 : Pt)
      (hg : convArm st seg)
      (hc : curve_segment_to_info seg st.current_pos = some (info, pos2)) :
      SegsRel ⟨pos2, st.start, st.curves ++ [info]⟩ rest r →
      SegsRel st (seg :: rest) r
  | convPanic (st : SegState) (seg : CurveSegment) (rest : List CurveSegment)
      (hg : convArm st seg)
      (hc : curve_segment_to_info seg st.current_pos = none) :
      SegsRel st (seg :: rest) (.error panicMsg)

theorem SegsRel.loop_deterministic (st : SegState) (segs : List CurveSegment)
    (r1 r2 : Except String SegState)
    (h1 : SegsRel st segs r1) (h2 : SegsRel st segs r2) : r1 = r2 := by
  induction h1 generalizing r2 with
  | nil st =>
    cases h2
    rfl
  | goToStep st p rest r hrec ih =>
    cases h2 with
    | goToStep _ _ _ _ hrec2 => exact ih _ hrec2
    | convStep _ _ _ _ _ _ hg2 _ _ => exact hg2.elim
    | convPanic _ _ _ hg2 _ => exact hg2.elim
  | closeShort st p2 rest r hshort hrec ih =>
    cases h2 with
    | closeShort _ _ _ _ _ hrec2 => exact ih _ hrec2
    | convStep _ _ _ _ _ _ hg2 _ _ => exact absurd hshort hg2
    | convPanic _ _ _ hg2 _ => exact absurd hshort hg2
  | convStep st seg rest r info pos2 hg hc hrec ih =>
    cases h2 with
    | goToStep _ _ _ _ _ => exact hg.elim
    | closeShort _ _ _ _ hshort2 _ => exact absurd hshort2 hg
    | convStep _ _ _ _ info2 pos2b hg2 hc2 hrec2 =>
      rw [hc] at hc2
      cases hc2
      exact ih _ hrec2
    | convPanic _ _ _ hg2 hc2 => rw [hc] at hc2; cases hc2
  | convPanic st seg rest hg hc =>
    cases h2 with
    | goToStep _ _ _ _ _ => exact hg.elim
    | closeShort _ _ _ _ hshort2 _ => exact absurd hshort2 hg
    | convStep _ _ _ _ info2 pos2b hg2 hc2 hrec2 => rw [hc] at hc2; cases hc2
    | convPanic _ _ _ _ _ => rfl

/-- The observable outcome of a run: a panic, a failure while computing an
output file name, or a finished run with its composite curve, its two
profile polylines and the writes it performs. -/
inductive MainResult where
  | panicked (msg : String)
  | failed (msg : String)
  | finished (curves : List CurveInfo) (path1 path2 : List FPt)
      (writes : List (OutTarget × FileData))

/-- Big-step semantics of `main` (after the input file is opened), mirroring
its branches: template mode, a loop panic, and a normal run whose output
phase either succeeds or fails on a bad output file name. -/
inductive MainRel (curveSem : List CurveInfo → FV × (FV → FPt))
    (fmt : FV → String) (args : CmdArgs) (segs : List CurveSegment) :
    MainResult → Prop where
  | template (t : String) (ht : args.svg_template = some t) :
      MainRel curveSem fmt args segs
        (.finished [] [] []
          [(create_output_file t, .text (svgPrologueStr ++ svgEpilogueStr))])
  | loopPanic (msg : String) (ht : args.svg_template = none)
      (hs : SegsRel initSegState segs (.error msg)) :
      MainRel curveSem fmt args segs (.panicked msg)
  | runOk (st : SegState) (ws : List (OutTarget × FileData))
      (ht : args.svg_template = none)
      (hs : SegsRel initSegState segs (.ok st))
      (hw : outputWrites fmt args (synthFromState curveSem st).1
        (synthFromState curveSem st).2 = .ok ws) :
      MainRel curveSem fmt args segs
        (.finished st.curves (synthFromState curveSem st).1
          (synthFromState curveSem st).2 ws)
  | runFail (st : SegState) (msg : String)
      (ht : args.svg_template = none)
      (hs : SegsRel initSegState segs (.ok st))
      (hw : outputWrites fmt args (synthFromState curveSem st).1
        (synthFromState curveSem st).2 = .error msg) :
      MainRel curveSem fmt args segs (.failed msg)

theorem MainRel.run_deterministic (curveSem : List CurveInfo → FV × (FV → FPt))
    (fmt : FV → String) (args : CmdArgs) (segs : List CurveSegment)
    (r1 r2 : MainResult)
    (h1 : MainRel curveSem fmt args segs r1)
    (h2 : MainRel curveSem fmt args segs r2) : r1 = r2 := by
  cases h1 with
  | template t ht =>
    cases h2 with
    | template t2 ht2 => rw [ht] at ht2; cases ht2; rfl
    | loopPanic _ ht2 _ => rw [ht] at ht2; cases ht2
    | runOk _ _ ht2 _ _ => rw [ht] at ht2; cases ht2
    | runFail _ _ ht2 _ _ => rw [ht] at ht2; cases ht2
  | loopPanic msg ht hs =>
    cases h2 with
    | template t2 ht2 => rw [ht] at ht2; cases ht2
    | loopPanic msg2 _ hs2 =>
      cases SegsRel.loop_deterministic _ _ _ _ hs hs2
      rfl
    | runOk st2 _ _ hs2 _ => cases SegsRel.loop_deterministic _ _ _ _ hs hs2
    | runFail st2 _ _ hs2 _ => cases SegsRel.loop_deterministic _ _ _ _ hs hs2
  | runOk st ws ht hs hw =>
    cases h2 with
    | template t2 ht2 => rw [ht] at ht2; cases ht2
    | loopPanic _ _ hs2 => cases SegsRel.loop_deterministic _ _ _ _ hs hs2
    | runOk st2 ws2 _ hs2 hw2 =>
      cases SegsRel.loop_deterministic _ _ _ _ hs hs2
      rw [hw] at hw2
      cases hw2
      rfl
    | runFail st2 _ _ hs2 hw2 =>
      cases SegsRel.loop_deterministic _ _ _ _ hs hs2
      rw [hw] at hw2
      cases hw2
  | runFail st msg ht hs hw =>
    cases h2 with
    | template t2 ht2 => rw [ht] at ht2; cases ht2
    | loopPanic _ _ hs2 => cases SegsRel.loop_deterministic _ _ _ _ hs hs2
    | runOk st2 ws2 _ hs2 hw2 =>
      cases SegsRel.loop_deterministic _ _ _ _ hs hs2
      rw [hw] at hw2
      cases hw2
    | runFail st2 msg2 _ hs2 hw2 =>
      cases SegsRel.loop_deterministic _ _ _ _ hs hs2
      rw [hw] at hw2
      cases hw2
      rfl

/-! ## Claim theorems -/

/-- Componentwise subtraction of point literals. -/
theorem Pt.sub_def (a b c d : ℝ) :
    (Pt.mk a b) - (Pt.mk c d) = Pt.mk (a - c) (b - d) := rfl

/-- Componentwise addition of point literals. -/
theorem Pt.add_def (a b c d : ℝ) :
    (Pt.mk a b) + (Pt.mk c d) = Pt.mk (a + c) (b + d) := rfl

/-- A curve configuration used to instantiate hypotheses at a concrete
input: a constant curve at the origin. -/
def trivCfg : Synth.Cfg :=
  ⟨FV.num 0, fun _ => ⟨FV.num 0, FV.num 0⟩, ⟨FV.num 0, FV.num 0⟩⟩

/-- A trivial `ConcatCurve` semantics and number formatter for concrete
instantiations of the whole-run function. -/
def trivSem : List CurveInfo → FV × (FV → FPt) :=
  fun _ => (FV.num 0, fun _ => ⟨FV.num 0, FV.num 0⟩)

def trivFmt : FV → String := fun _ => ""

/-- C1: at every step `i ≥ 1` the emitted profile point of each follower
curve is the follower-radius correction of the two consecutive raw rotated
points — the unit perpendicular of the chord from the previous to the
current raw point, scaled by the contact radius, added to the midpoint of
the two raw points — and the SAME correction rule (`Synth.interp`) is
applied to both follower curves. -/
theorem c1_follower_correction (c : Synth.Cfg) (N i : ℕ)
    (h1 : 1 ≤ i) (h2 : i ≤ N) :
    (Synth.path1 c N).get? (i - 1) =
      some (Synth.interp (Synth.p2r c N (i - 1)) (Synth.p2r c N i)) ∧
    (Synth.path2 c N).get? (i - 1) =
      some (Synth.interp (Synth.p3r c N (i - 1)) (Synth.p3r c N i)) :=
  ⟨Synth.path1_get c N i h1 h2, Synth.path2_get c N i h1 h2⟩

/-- Witness for C1 at `N = 2`, `i = 1`. -/
theorem c1_follower_correction_witness :
    (1 ≤ 1 ∧ (1 : ℕ) ≤ 2) ∧
    ((Synth.path1 trivCfg 2).get? 0 =
      some (Synth.interp (Synth.p2r trivCfg 2 0) (Synth.p2r trivCfg 2 1)) ∧
     (Synth.path2 trivCfg 2).get? 0 =
      some (Synth.interp (Synth.p3r trivCfg 2 0) (Synth.p3r trivCfg 2 1))) :=
  ⟨⟨by decide, by decide⟩, c1_follower_correction trivCfg 2 1 (by decide) (by decide)⟩

/-- C2: every run of the synthesis loop takes `N + 1` raw samples, at step
indices `0` through `N` inclusive, and emits exactly `N` points into each
of the two output polylines (one per consecutive pair of raw samples); the
program instantiates `N` as `full_turn = 400`. -/
theorem c2_sample_counts (c : Synth.Cfg) (N : ℕ) :
    (Synth.rawSamples c N).length = N + 1 ∧
    (Synth.path1 c N).length = N ∧
    (Synth.path2 c N).length = N ∧
    Synth.full_turn = 400 :=
  ⟨Synth.rawSamples_length c N, Synth.path1_length c N,
   Synth.path2_length c N, rfl⟩

/-- C3: converting an `Arc` segment succeeds — yielding a CircleSegment
primitive — exactly when `|radiusX − radiusY| ≤ f64::EPSILON`; with a
larger difference `curve_segment_to_info` returns `None`, and any run whose
segment list contains such an arc panics out of the main loop, producing
none of its output writes. -/
theorem c3_arc_radii (rx ry sa ea ro : ℝ) :
    (|rx - ry| ≤ f64Epsilon → ∀ pos : Pt,
      curve_segment_to_info (.arc rx ry sa ea ro) pos =
        some (.circle rx sa ea, pos + circleEndDisp rx sa ea)) ∧
    (|rx - ry| > f64Epsilon → ∀ pos : Pt,
      curve_segment_to_info (.arc rx ry sa ea ro) pos = none) ∧
    (|rx - ry| > f64Epsilon →
      ∀ (curveSem : List CurveInfo → FV × (FV → FPt)) (fmt : FV → String)
        (args : CmdArgs) (segs : List CurveSegment),
        args.svg_template = none →
        (CurveSegment.arc rx ry sa ea ro) ∈ segs →
        mainRun curveSem fmt args segs = .error panicMsg) := by
  refine ⟨?_, ?_, ?_⟩
  · intro hle pos
    simp [curve_segment_to_info, not_lt.mpr hle]
  · intro hgt pos
    simp [curve_segment_to_info, hgt]
  · intro hgt curveSem fmt args segs ht hmem
    simp [mainRun, ht, processSegs_badArc rx ry sa ea ro hgt segs initSegState hmem]

/-- Witness for C3: an exactly circular arc converts, an elliptical one is
rejected and panics the run. -/
theorem c3_arc_radii_witness :
    (|(1 : ℝ) - 1| ≤ f64Epsilon ∧
      curve_segment_to_info (.arc 1 1 0 0 0) ⟨0, 0⟩ =
        some (.circle 1 0 0, (⟨0, 0⟩ : Pt) + circleEndDisp 1 0 0)) ∧
    (|(1 : ℝ) - 2| > f64Epsilon ∧
      curve_segment_to_info (.arc 1 2 0 0 0) ⟨0, 0⟩ = none ∧
      mainRun trivSem trivFmt ⟨none, none, none, none, none⟩
        [.arc 1 2 0 0 0] = .error panicMsg) := by
  have hle : |(1 : ℝ) - 1| ≤ f64Epsilon := by norm_num [f64Epsilon]
  have hgt : |(1 : ℝ) - 2| > f64Epsilon := by
    rw [f64Epsilon]
    rw [show |(1 : ℝ) - 2| = 1 by norm_num [abs_of_nonpos]]
    norm_num
  refine ⟨⟨hle, (c3_arc_radii 1 1 0 0 0).1 hle ⟨0, 0⟩⟩,
    ⟨hgt, (c3_arc_radii 1 2 0 0 0).2.1 hgt ⟨0, 0⟩,
      (c3_arc_radii 1 2 0 0 0).2.2 hgt trivSem trivFmt _ _ rfl (by simp)⟩⟩

/-- C4 counterexample: at cursor `(1,0)` with `CurveTo((2,0), (5,5), (7,7))`
the Bezier is NOT built from `(ctrl1 − cursor, ctrl2 − cursor, end −
cursor)`: the code passes `ctrl1` through unchanged and offsets `ctrl2` by
the relative endpoint instead. -/
theorem c4_counterexample :
    curve_segment_to_info (CurveSegment.curveTo ⟨2, 0⟩ ⟨5, 5⟩ ⟨7, 7⟩) ⟨1, 0⟩ ≠
      some (CurveInfo.bezier ((⟨5, 5⟩ : Pt) - ⟨1, 0⟩) ((⟨7, 7⟩ : Pt) - ⟨1, 0⟩)
        ((⟨2, 0⟩ : Pt) - ⟨1, 0⟩), ⟨2, 0⟩) := by
  intro hcontra
  rw [curve_segment_to_info, Pt.sub_def, Pt.sub_def, Pt.sub_def] at hcontra
  norm_num [Pt.add_def] at hcontra

/-- C4 (amended): for every `CurveTo(end, ctrl1, ctrl2)` the endpoint is
made cursor-relative (`end − cursor`) and the cursor advances to `end`, but
`ctrl1` is taken as already cursor-relative and `ctrl2` as relative to the
endpoint, so the Bezier is built as
`Bezier::new(ctrl1, (end − cursor) + ctrl2, end − cursor)`. -/
theorem c4_bezier_construction (p2 c1 c2 pos : Pt) :
    curve_segment_to_info (.curveTo p2 c1 c2) pos =
      some (.bezier c1 ((p2 - pos) + c2) (p2 - pos), p2) := rfl

/-- C5: whenever the translated sampled point `p10` of a step violates the
triangle inequality (`|p10|/2 > d`, so the operand `d·d − b·b` of the square
root is negative), the height `a` of that step is non-finite, and the
non-finiteness propagates into both coordinates of the profile points
emitted for that step on both follower curves — the point is still emitted
(not skipped) and not clamped or otherwise recovered. -/
theorem c5_nan_propagation (c : Synth.Cfg) (N rot : ℕ) (x y : ℝ)
    (h1 : 1 ≤ rot) (h2 : rot ≤ N)
    (hx : (Synth.p10 c N rot).x = FV.num x)
    (hy : (Synth.p10 c N rot).y = FV.num y)
    (hgt : Synth.d < Real.sqrt (x * x + y * y) * 0.5) :
    Synth.a c N rot = FV.nan ∧
    ∃ q1 q2,
      (Synth.path1 c N).get? (rot - 1) = some q1 ∧
      q1.x = FV.nan ∧ q1.y = FV.nan ∧
      (Synth.path2 c N).get? (rot - 1) = some q2 ∧
      q2.x = FV.nan ∧ q2.y = FV.nan := by
  have ha := Synth.a_eq_nan c N rot x y hx hy hgt
  have h2r := Synth.p2r_nan c N rot ha
  have h3r := Synth.p3r_nan c N rot ha
  have hi2 := Synth.interp_nan_cur (Synth.p2r c N (rot - 1)) _ h2r.1 h2r.2
  have hi3 := Synth.interp_nan_cur (Synth.p3r c N (rot - 1)) _ h3r.1 h3r.2
  exact ⟨ha, _, _, Synth.path1_get c N rot h1 h2, hi2.1, hi2.2,
    Synth.path2_get c N rot h1 h2, hi3.1, hi3.2⟩

/-- An unreachable curve configuration: the sampled point sits 264 units
from the follower origin, beyond the arms' reach. -/
def farCfg : Synth.Cfg :=
  ⟨FV.num 0, fun _ => ⟨FV.num 200, FV.num 0⟩, ⟨FV.num 0, FV.num 0⟩⟩

/-- Witness for C5 at `N = 1`, `rot = 1`, `p10 = (264, 0)`. -/
theorem c5_nan_propagation_witness :
    (1 ≤ 1 ∧ (1 : ℕ) ≤ 1 ∧
     (Synth.p10 farCfg 1 1).x = FV.num 264 ∧
     (Synth.p10 farCfg 1 1).y = FV.num 0 ∧
     Synth.d < Real.sqrt (264 * 264 + 0 * 0) * 0.5) ∧
    (Synth.a farCfg 1 1 = FV.nan ∧
     ∃ q1 q2,
       (Synth.path1 farCfg 1).get? 0 = some q1 ∧
       q1.x = FV.nan ∧ q1.y = FV.nan ∧
       (Synth.path2 farCfg 1).get? 0 = some q2 ∧
       q2.x = FV.nan ∧ q2.y = FV.nan) := by
  have hx : (Synth.p10 farCfg 1 1).x = FV.num 264 := by
    show FV.num 200 + FV.num Synth.d + FV.num 0 = FV.num 264
    rw [FV.num_add_num, FV.num_add_num]
    norm_num [Synth.d, Synth.lu]
  have hy : (Synth.p10 farCfg 1 1).y = FV.num 0 := by
    show FV.num 0 + FV.num 0 + FV.num 0 = FV.num 0
    rw [FV.num_add_num, FV.num_add_num]
    norm_num
  have hgt : Synth.d < Real.sqrt (264 * 264 + 0 * 0) * 0.5 := by
    rw [show (264 : ℝ) * 264 + 0 * 0 = 264 ^ 2 by norm_num,
      Real.sqrt_sq (by norm_num : (0 : ℝ) ≤ 264)]
    norm_num [Synth.d, Synth.lu]
  exact ⟨⟨le_refl 1, le_refl 1, hx, hy, hgt⟩,
    c5_nan_propagation farCfg 1 1 264 0 (le_refl 1) (le_refl 1) hx hy hgt⟩

/-- C6: a `CloseTo` whose target is within Euclidean distance 1e-6 of the
cursor adds no curve primitive (the primitive list — hence its segment
count and total length — is unchanged) and only moves the cursor to the
target; a `CloseTo` at distance ≥ 1e-6 appends a Line primitive with the
cursor-relative displacement. -/
theorem c6_close_elision (st : SegState) (p2 : Pt) :
    ((st.current_pos - p2).len < 1e-6 →
      ∃ st2, mainSegStep st (.closeTo p2) = .ok st2 ∧
        st2.current_pos = p2 ∧
        st2.curves = st.curves ∧
        st2.curves.length = st.curves.length ∧
        (∀ ell : CurveInfo → ℝ,
          concatTotalLength ell st2.curves = concatTotalLength ell st.curves)) ∧
    (1e-6 ≤ (st.current_pos - p2).len →
      mainSegStep st (.closeTo p2) =
        .ok ⟨p2, st.start, st.curves ++ [.line (p2 - st.current_pos)]⟩) := by
  constructor
  · intro hshort
    refine ⟨⟨p2, st.start, st.curves⟩, ?_, rfl, rfl, rfl, fun ell => rfl⟩
    simp [mainSegStep, hshort]
  · intro hfar
    simp [mainSegStep, not_lt.mpr hfar, curve_segment_to_info]

/-- Witness for C6: a coincident closing target is skipped, a unit-distance
one produces a Line. -/
theorem c6_close_elision_witness :
    ((initSegState.current_pos - ⟨0, 0⟩).len < 1e-6 ∧
     ∃ st2, mainSegStep initSegState (.closeTo ⟨0, 0⟩) = .ok st2 ∧
       st2.current_pos = (⟨0, 0⟩ : Pt) ∧
       st2.curves = initSegState.curves ∧
       st2.curves.length = initSegState.curves.length ∧
       (∀ ell : CurveInfo → ℝ,
         concatTotalLength ell st2.curves =
           concatTotalLength ell initSegState.curves)) ∧
    (1e-6 ≤ (initSegState.current_pos - ⟨1, 0⟩).len ∧
     mainSegStep initSegState (.closeTo ⟨1, 0⟩) =
       .ok ⟨⟨1, 0⟩, initSegState.start,
         initSegState.curves ++
           [.line ((⟨1, 0⟩ : Pt) - initSegState.current_pos)]⟩) := by
  have hshort : (initSegState.current_pos - (⟨0, 0⟩ : Pt)).len < 1e-6 := by
    show Pt.len ((⟨0, 0⟩ : Pt) - ⟨0, 0⟩) < 1e-6
    rw [Pt.sub_def, Pt.len]
    norm_num
  have hfar : (1e-6 : ℝ) ≤ (initSegState.current_pos - (⟨1, 0⟩ : Pt)).len := by
    show (1e-6 : ℝ) ≤ Pt.len ((⟨0, 0⟩ : Pt) - ⟨1, 0⟩)
    rw [Pt.sub_def, Pt.len]
    rw [show ((0 : ℝ) - 1) * (0 - 1) + (0 - 0) * (0 - 0) = 1 by norm_num]
    rw [Real.sqrt_one]
    norm_num
  exact ⟨⟨hshort, (c6_close_elision initSegState ⟨0, 0⟩).1 hshort⟩,
    ⟨hfar, (c6_close_elision initSegState ⟨1, 0⟩).2 hfar⟩⟩

/-- C7: with the svg-template flag set, the run writes exactly the SVG
prologue followed by the SVG epilogue (no path elements) to the template
output target and succeeds, whatever the other arguments are; the parsed
input plays no role (the output is the same for any two segment lists). -/
theorem c7_template_mode (curveSem : List CurveInfo → FV × (FV → FPt))
    (fmt : FV → String) (args : CmdArgs) (t : String)
    (segs segs2 : List CurveSegment)
    (ht : args.svg_template = some t) :
    mainRun curveSem fmt args segs =
      .ok [(create_output_file t, .text (svgPrologueStr ++ svgEpilogueStr))] ∧
    mainRun curveSem fmt args segs = mainRun curveSem fmt args segs2 := by
  constructor <;> simp [mainRun, ht]

/-- Witness for C7 with every other argument supplied and two different
segment lists. -/
theorem c7_template_mode_witness :
    (CmdArgs.mk (some "in.svg") (some "o.svg") (some "l.dat") (some "s.stl")
        (some "t.svg")).svg_template = some "t.svg" ∧
    (mainRun trivSem trivFmt
        ⟨some "in.svg", some "o.svg", some "l.dat", some "s.stl", some "t.svg"⟩
        [] =
      .ok [(create_output_file "t.svg",
        .text (svgPrologueStr ++ svgEpilogueStr))] ∧
     mainRun trivSem trivFmt
        ⟨some "in.svg", some "o.svg", some "l.dat", some "s.stl", some "t.svg"⟩
        [] =
      mainRun trivSem trivFmt
        ⟨some "in.svg", some "o.svg", some "l.dat", some "s.stl", some "t.svg"⟩
        [.goTo ⟨0, 0⟩]) :=
  ⟨rfl, c7_template_mode trivSem trivFmt _ "t.svg" [] [.goTo ⟨0, 0⟩] rfl⟩

/-- A sample polyline vertex for STL instantiations. -/
def stlPt : FPt := ⟨FV.num 1, FV.num 0⟩

/-- C8 counterexample: for a polyline of 2³⁰ vertices the declared 32-bit
triangle count wraps to 0 (`(2³⁰·4) as u32 = 0`) while 4·2³⁰ triangle
records are written, so the declared count does NOT always equal the number
of records. -/
theorem c8_counterexample :
    declaredTriangleCount (List.replicate (2 ^ 30) stlPt) ≠
      (stlTriangles (List.replicate (2 ^ 30) stlPt)).length := by
  rw [stlTriangles_length, declaredTriangleCount, List.length_replicate]
  norm_num

/-- C8 (amended): `write_stl_file` writes an 80-byte zero header, then the
32-bit little-endian triangle count `(2·2·n) mod 2³²`, then exactly
`2·2·n` triangle records — two quadrilaterals per consecutive vertex pair
(wall and top cap), each split into two triangles, the last vertex paired
with the first — so the declared count equals the number of records
whenever `2·2·n < 2³²` (in particular for `n = 0` and for the `n = 400`
polylines the program produces); for `n ≥ 2³⁰` the `as u32` cast truncates
and the two differ. -/
theorem c8_stl_layout (path : List FPt) :
    stlHeader.length = 80 ∧
    (∀ byte ∈ stlHeader, byte = 0) ∧
    (stlTriangles path).length = 2 * 2 * path.length ∧
    (path.length * (2 * 2) < 2 ^ 32 →
      declaredTriangleCount path = (stlTriangles path).length) := by
  refine ⟨rfl, ?_, stlTriangles_length path, ?_⟩
  · intro byte hb
    exact List.eq_of_mem_replicate hb
  · intro hlt
    rw [declaredTriangleCount, Nat.mod_eq_of_lt hlt, stlTriangles_length]
    ring

/-- Witness for C8 on a one-vertex polyline (and, via `n = 0`, the empty
one). -/
theorem c8_stl_layout_witness :
    (([stlPt] : List FPt).length * (2 * 2) < 2 ^ 32 ∧
      declaredTriangleCount [stlPt] = (stlTriangles [stlPt]).length) ∧
    (([] : List FPt).length * (2 * 2) < 2 ^ 32 ∧
      declaredTriangleCount ([] : List FPt) =
        (stlTriangles ([] : List FPt)).length) :=
  ⟨⟨by norm_num, (c8_stl_layout [stlPt]).2.2.2 (by norm_num)⟩,
   ⟨by norm_num, (c8_stl_layout ([] : List FPt)).2.2.2 (by norm_num)⟩⟩

/-- C9: the pipeline is deterministic — for a fixed argument set, segment
list, composite-curve semantics and number formatter, any two runs related
by the big-step semantics produce the same composite curve, the same two
profile polylines and byte-identical output writes. -/
theorem c9_determinism (curveSem : List CurveInfo → FV × (FV → FPt))
    (fmt : FV → String) (args : CmdArgs) (segs : List CurveSegment)
    (r1 r2 : MainResult)
    (h1 : MainRel curveSem fmt args segs r1)
    (h2 : MainRel curveSem fmt args segs r2) : r1 = r2 :=
  MainRel.run_deterministic curveSem fmt args segs r1 r2 h1 h2

/-- Witness for C9: two template-mode derivations of the same run agree. -/
theorem c9_determinism_witness :
    MainResult.finished [] [] []
        [(create_output_file "tpl.svg",
          .text (svgPrologueStr ++ svgEpilogueStr))] =
      MainResult.finished [] [] []
        [(create_output_file "tpl.svg",
          .text (svgPrologueStr ++ svgEpilogueStr))] :=
  c9_determinism trivSem trivFmt ⟨none, none, none, none, some "tpl.svg"⟩ []
    _ _ (MainRel.template "tpl.svg" rfl) (MainRel.template "tpl.svg" rfl)

/-- C10: for the mesh output filename `-`, `add_file_suffix` succeeds (the
path `-` has parent `""` and stem `-`) and yields `-_1`/`-_2`, which are no
longer `-`; hence the stl and ldraw branches write to files literally named
`-_1` and `-_2` instead of standard output — the `-`-means-stdout
convention does not reach suffixed mesh outputs. -/
theorem c10_dash_mesh_filenames (curveSem : List CurveInfo → FV × (FV → FPt))
    (fmt : FV → String) (segs : List CurveSegment) (st : SegState)
    (sf : Option String)
    (hproc : processSegs initSegState segs = .ok st) :
    pathParent "-" = some "" ∧
    pathFileStem "-" = some "-" ∧
    add_file_suffix "-" "_1" = .ok "-_1" ∧
    add_file_suffix "-" "_2" = .ok "-_2" ∧
    ("-_1" : String) ≠ "-" ∧ ("-_2" : String) ≠ "-" ∧
    create_output_file "-_1" = .file "-_1" ∧
    create_output_file "-_2" = .file "-_2" ∧
    mainRun curveSem fmt ⟨sf, none, none, some "-", none⟩ segs =
      .ok [(.file "-_1", .stlMesh (synthFromState curveSem st).1),
           (.file "-_2", .stlMesh (synthFromState curveSem st).2)] ∧
    mainRun curveSem fmt ⟨sf, none, some "-", none, none⟩ segs =
      .ok [(.file "-_1", .ldrawMesh (synthFromState curveSem st).1),
           (.file "-_2", .ldrawMesh (synthFromState curveSem st).2)] := by
  have ha1 : add_file_suffix "-" "_1" = .ok "-_1" := rfl
  have ha2 : add_file_suffix "-" "_2" = .ok "-_2" := rfl
  have hne1 : ("-_1" : String) ≠ "-" := by decide
  have hne2 : ("-_2" : String) ≠ "-" := by decide
  refine ⟨rfl, rfl, ha1, ha2, hne1, hne2, ?_, ?_, ?_, ?_⟩
  · simp [create_output_file, hne1]
  · simp [create_output_file, hne2]
  · simp [mainRun, hproc, outputWrites, ha1, ha2, create_output_file,
      hne1, hne2]
  · simp [mainRun, hproc, outputWrites, ha1, ha2, create_output_file,
      hne1, hne2]

/-- Witness for C10 on the empty segment list. -/
theorem c10_dash_mesh_filenames_witness :
    processSegs initSegState [] = .ok initSegState ∧
    mainRun trivSem trivFmt ⟨none, none, none, some "-", none⟩ [] =
      .ok [(.file "-_1", .stlMesh (synthFromState trivSem initSegState).1),
           (.file "-_2", .stlMesh (synthFromState trivSem initSegState).2)] :=
  ⟨rfl, (c10_dash_mesh_filenames trivSem trivFmt [] initSegState none
    rfl).2.2.2.2.2.2.2.2.1⟩

end

